import Mathlib

/-!
Verification of the ops-beacon event-monitoring core: a shallow embedding of
the domain entities (`Event`, `AlertLevel`, `EventStatus`), the domain
exceptions, and the application use cases (acknowledge, sweep alerting,
real-time batch processing), together with theorems settling the spec's
claims about them.

Python mutation is modelled by explicit state passing: a method that may
raise returns the error (if any) together with the state of the entity when
control leaves the method.  Machine-level concerns do not arise: Python
integers are unbounded, so ids and instants are `Int`.
-/

namespace OpsBeacon

/-- Domain exception hierarchy from `domain/exceptions/domain_exceptions.py`:
the base `DomainException` (raised directly by `AckEventUseCase`), and its
subclasses `InvalidEventStateError`, `InvalidEventTransitionError`,
`EventNotFoundError`.  Each carries its message. -/
inductive DomainError where
  | invalidEventState (msg : String)
  | invalidEventTransition (msg : String)
  | eventNotFound (msg : String)
  | domainException (msg : String)
deriving DecidableEq, Repr

/-- Validation-kind test: the error is an `InvalidEventStateError`. -/
def DomainError.isValidation : DomainError → Bool
  | .invalidEventState _ => true
  | _ => false

/-- Transition-kind test: the error is an `InvalidEventTransitionError`. -/
def DomainError.isTransition : DomainError → Bool
  | .invalidEventTransition _ => true
  | _ => false

/-- Not-found-kind test: the error is an `EventNotFoundError`. -/
def DomainError.isNotFound : DomainError → Bool
  | .eventNotFound _ => true
  | _ => false

/-- Alert severity levels from `domain/enums/alert_level.py`. -/
inductive AlertLevel where
  | NORMAL
  | WARNING
  | ERROR
deriving DecidableEq, Repr

/-- Embedding of `AlertLevel.requires_acknowledgment`:
`self in (AlertLevel.WARNING, AlertLevel.ERROR)`. -/
def AlertLevel.requires_acknowledgment (l : AlertLevel) : Bool :=
  l == AlertLevel.WARNING || l == AlertLevel.ERROR

/-- The `priority_order` dictionary inside `AlertLevel.__lt__`:
ERROR maps to 0, WARNING to 1, NORMAL to 2. -/
def AlertLevel.priority_order : AlertLevel → Nat
  | .ERROR => 0
  | .WARNING => 1
  | .NORMAL => 2

/-- Embedding of `AlertLevel.__lt__`: compares the `priority_order` values,
so higher-priority levels compare as less-than for ascending sorts. -/
def AlertLevel.__lt__ (l other : AlertLevel) : Bool :=
  decide (l.priority_order < other.priority_order)

/-- Event lifecycle states from `domain/enums/event_status.py`. -/
inductive EventStatus where
  | NEW
  | ACKNOWLEDGED
deriving DecidableEq, Repr

/-- Embedding of `EventStatus.is_acknowledged`. -/
def EventStatus.is_acknowledged (s : EventStatus) : Bool :=
  s == EventStatus.ACKNOWLEDGED

/-- Embedding of `EventStatus.is_new`. -/
def EventStatus.is_new (s : EventStatus) : Bool :=
  s == EventStatus.NEW

/-- A Python `datetime`: `time` is the absolute instant it denotes (aware
datetimes compare by instant), `tzinfo` is the attached time zone, `none`
for a naive datetime. -/
structure PyDatetime where
  time : Int
  tzinfo : Option Int
deriving DecidableEq, Repr

/-- Embedding of `datetime.__lt__` on the instants. -/
def PyDatetime.__lt__ (t other : PyDatetime) : Bool :=
  decide (t.time < other.time)

/-- A Python value passed as the `metadata` argument: the
`isinstance(self.metadata, dict)` check in `_validate_metadata` only cares
whether it is a dict, so the embedding keeps a dict's entries and collapses
every non-dict value to a tag. -/
inductive PyValue where
  | dict (entries : List (String × String))
  | nonDict (tag : String)
deriving DecidableEq, Repr

/-- Test mirroring `isinstance(metadata, dict)`. -/
def PyValue.isDict : PyValue → Bool
  | .dict _ => true
  | .nonDict _ => false

/-- The `Event` dataclass fields from `domain/entities/event.py`. -/
structure Event where
  id : Int
  source : String
  metadata : PyValue
  level : AlertLevel
  timestamp : PyDatetime
  status : EventStatus
deriving DecidableEq, Repr

/-- Embedding of the leading-whitespace drop inside Python `str.strip()`. -/
def dropLeadingWs : List Char → List Char
  | [] => []
  | c :: rest => if c.isWhitespace then dropLeadingWs rest else c :: rest

/-- Embedding of Python `str.strip()`: removes leading and trailing
whitespace characters. -/
def pyStrip (s : String) : String :=
  ⟨((dropLeadingWs s.data).reverse |> dropLeadingWs).reverse⟩

/-- Embedding of `Event._validate_source`: fails when the source is falsy
(empty) or strips to the empty string (whitespace-only). -/
def Event._validate_source (e : Event) : Option DomainError :=
  if e.source = "" ∨ pyStrip e.source = "" then
    some (.invalidEventState "Event source cannot be empty")
  else none

/-- Embedding of `Event._validate_metadata`: fails when metadata is not a
dict. -/
def Event._validate_metadata (e : Event) : Option DomainError :=
  if !e.metadata.isDict then
    some (.invalidEventState "Event metadata must be a dictionary")
  else none

/-- Embedding of `Event._validate_timestamp`: fails when `tzinfo is None`. -/
def Event._validate_timestamp (e : Event) : Option DomainError :=
  if e.timestamp.tzinfo = none then
    some (.invalidEventState "Event timestamp must be timezone-aware")
  else none

/-- Embedding of `Event._validate_initial_state`: a NORMAL event must not be
in ACKNOWLEDGED status. -/
def Event._validate_initial_state (e : Event) : Option DomainError :=
  if e.level = AlertLevel.NORMAL ∧ e.status = EventStatus.ACKNOWLEDGED then
    some (.invalidEventState
      "NORMAL events cannot be acknowledged (no acknowledgment required)")
  else none

/-- Embedding of `Event.__post_init__`: runs the four validators in order
and surfaces the first failure. -/
def Event.__post_init__ (e : Event) : Option DomainError :=
  match e._validate_source with
  | some err => some err
  | none =>
    match e._validate_metadata with
    | some err => some err
    | none =>
      match e._validate_timestamp with
      | some err => some err
      | none => e._validate_initial_state

/-- Constructing an `Event(...)` in Python runs `__post_init__`, which may
raise; the embedding returns the validated event or the error. -/
def Event.construct (id : Int) (source : String) (metadata : PyValue)
    (level : AlertLevel) (timestamp : PyDatetime) (status : EventStatus) :
    Except DomainError Event :=
  let e : Event := ⟨id, source, metadata, level, timestamp, status⟩
  match e.__post_init__ with
  | some err => .error err
  | none => .ok e

/-- Embedding of the `Event.create` factory: defaults the timestamp to `now`
when omitted, consumes the class counter `_next_id` (threaded explicitly as
`next_id`), and constructs the event with status NEW.  Returns the event
together with the incremented counter. -/
def Event.create (source : String) (metadata : PyValue) (level : AlertLevel)
    (timestamp? : Option PyDatetime) (now : PyDatetime) (next_id : Int) :
    Except DomainError (Event × Int) :=
  let timestamp := timestamp?.getD now
  let event_id := next_id
  match Event.construct event_id source metadata level timestamp
      EventStatus.NEW with
  | .error err => .error err
  | .ok e => .ok (e, next_id + 1)

/-- Embedding of `Event.acknowledge`.  Each `raise` exits with the entity in
its state at that point; both raises precede the single assignment, so the
error branches carry `e` unchanged, and the success branch carries the
mutated entity. -/
def Event.acknowledge (e : Event) : Option DomainError × Event :=
  if e.level = AlertLevel.NORMAL then
    (some (.invalidEventTransition
      ("Cannot acknowledge NORMAL event " ++ toString e.id ++
        ": NORMAL events do not require acknowledgment")), e)
  else if e.status = EventStatus.ACKNOWLEDGED then
    (some (.invalidEventTransition
      ("Event " ++ toString e.id ++ " is already acknowledged")), e)
  else
    (none, { e with status := EventStatus.ACKNOWLEDGED })

/-- Embedding of `Event.requires_acknowledgment`: delegates to the level. -/
def Event.requires_acknowledgment (e : Event) : Bool :=
  e.level.requires_acknowledgment

/-- Embedding of `Event.needs_alert`: requires acknowledgment and status is
still NEW. -/
def Event.needs_alert (e : Event) : Bool :=
  e.requires_acknowledgment && e.status == EventStatus.NEW

/-- Embedding of `Event.__lt__`: level first (via `AlertLevel.__lt__`), then
timestamp ascending within the same level. -/
def Event.__lt__ (e other : Event) : Bool :=
  if e.level ≠ other.level then AlertLevel.__lt__ e.level other.level
  else PyDatetime.__lt__ e.timestamp other.timestamp

/-- Embedding of `Event.__eq__`: identity equality on `id` alone. -/
def Event.__eq__ (e other : Event) : Bool :=
  e.id == other.id

/-- Non-strict counterpart of `Event.__lt__` used to state sortedness:
`eventLe a b` holds when `b` does not strictly precede `a`.  This is the
relation any comparison sort driven by `Event.__lt__` leaves its output
sorted by. -/
def eventLe (a b : Event) : Prop :=
  Event.__lt__ b a = false

instance : DecidableRel eventLe := fun a b =>
  inferInstanceAs (Decidable (Event.__lt__ b a = false))

/-- Sorting a list of events with the priority comparator, as Python's
`sorted` does via `Event.__lt__`. -/
def sortEvents (l : List Event) : List Event :=
  List.insertionSort eventLe l

/-- Modelled from the spec: the source ships only the `IEventRepository`
interface (no concrete store is under src/), so the store backing the
acknowledge use case is the plain in-memory model its docstrings describe —
`get_by_id` returns the event with the given id or an absence marker, and
`update` replaces the stored state for that id (last-write-wins). -/
def get_by_id (store : List Event) (event_id : Int) : Option Event :=
  store.find? (fun e => e.id == event_id)

/-- Modelled from the spec: `update(event)` replaces stored state for the
event's id (see `get_by_id` for the store model). -/
def update (store : List Event) (event : Event) : List Event :=
  store.map (fun e => if e.id == event.id then event else e)

/-- Embedding of `AckEventUseCase.execute` from
`application/use_cases/ack_event.py`: loads by id, raises the base
`DomainException` (not `EventNotFoundError`) when absent, acknowledges the
entity (propagating its error, which leaves the store untouched), persists
via `update` and returns the updated entity.  The result pairs the returned
value or error with the store state after the call. -/
def AckEventUseCase.execute (store : List Event) (event_id : Int) :
    Except DomainError Event × List Event :=
  match get_by_id store event_id with
  | none =>
    (.error (.domainException
      ("Event with id " ++ toString event_id ++ " not found")), store)
  | some event =>
    match event.acknowledge with
    | (some err, _) => (.error err, store)
    | (none, event') => (.ok event', update store event')

/-- Embedding of `AlertEventsUseCase.execute` from
`application/use_cases/alert_events.py`: iterates the store's events in
order and calls `alert_service.alert` on each event with `needs_alert()`
true.  The alert collaborator may raise (modelled by `Except`); the loop
body has no handler, so the first failure propagates and stops the loop.
Returns the list of events for which an alert call was dispatched, paired
with the propagated error, if any. -/
def AlertEventsUseCase.execute (events : List Event)
    (alert : Event → Except String Unit) : List Event × Option String :=
  match events with
  | [] => ([], none)
  | event :: rest =>
    if event.needs_alert then
      match alert event with
      | .error msg => ([event], some msg)
      | .ok _ =>
        let r := AlertEventsUseCase.execute rest alert
        (event :: r.1, r.2)
    else AlertEventsUseCase.execute rest alert

/-- Modelled from the spec: the event shape consumed by
`RealTimeEventProcessor` carries a `should_alert` flag the Rule sets as an
annotation alongside the event; the Event variant bearing that attribute is
not under src/, so it is modelled as an event paired with the flag. -/
structure AnnotatedEvent where
  event : Event
  should_alert : Bool
deriving DecidableEq, Repr

/-- One outbound call made by the batch pipeline to a collaborator: a batch
`save` on the store, a single batched `alert`, or a per-event `show` on the
display sink. -/
inductive PipelineCall where
  | save (events : List AnnotatedEvent)
  | alert (events : List AnnotatedEvent)
  | showEvent (event : AnnotatedEvent)
deriving DecidableEq, Repr

/-- Projection extracting the payload of an `alert` call. -/
def PipelineCall.alertPayload : PipelineCall → Option (List AnnotatedEvent)
  | .alert es => some es
  | _ => none

/-- Projection extracting the event of a `show` call. -/
def PipelineCall.showPayload : PipelineCall → Option AnnotatedEvent
  | .showEvent e => some e
  | _ => none

/-- Embedding of the display loop at the end of
`RealTimeEventProcessor.process`: calls `display_service.show` on each
event in order; the call may raise (modelled by `Except`), and a raise
aborts the loop and propagates.  Returns the show calls made, paired with
the propagated error, if any. -/
def displayLoop (showE : AnnotatedEvent → Except String Unit) :
    List AnnotatedEvent → List PipelineCall × Option String
  | [] => ([], none)
  | e :: rest =>
    match showE e with
    | .error msg => ([.showEvent e], some msg)
    | .ok _ =>
      let r := displayLoop showE rest
      (.showEvent e :: r.1, r.2)

/-- Embedding of `RealTimeEventProcessor.process` from
`application/use_cases/real_time_even_processor.py`: applies the rule, saves
the processed batch, dispatches one `alert` call with the events whose
`should_alert` is true, then shows every processed event in order.  Every
stage may raise (modelled by `Except` — the rule, the store's `save`, the
alert collaborator's `alert`, and each `display_service.show` call), and a
raise aborts the remaining stages, so a failing alert call prevents the
display loop from running at all.  Returns the trace of collaborator calls
made (a raising call is still recorded, since it was dispatched), paired
with the propagated error, if any. -/
def RealTimeEventProcessor.process
    (rule : List AnnotatedEvent → Except String (List AnnotatedEvent))
    (save : List AnnotatedEvent → Except String Unit)
    (alert : List AnnotatedEvent → Except String Unit)
    (showE : AnnotatedEvent → Except String Unit)
    (events : List AnnotatedEvent) : List PipelineCall × Option String :=
  match rule events with
  | .error msg => ([], some msg)
  | .ok processed_events =>
    match save processed_events with
    | .error msg => ([.save processed_events], some msg)
    | .ok _ =>
      let alerted_events := processed_events.filter (fun e => e.should_alert)
      match alert alerted_events with
      | .error msg =>
        ([.save processed_events, .alert alerted_events], some msg)
      | .ok _ =>
        let r := displayLoop showE processed_events
        ([.save processed_events, .alert alerted_events] ++ r.1, r.2)

/-- Modelled from the spec: metadata is an open mapping, mutable in place
(callers may attach diagnostic context after creation); mutation replaces
the metadata and touches no other field. -/
def Event.set_metadata (e : Event) (m : PyValue) : Event :=
  { e with metadata := m }

/-!  Theorems settling the claims. -/

/-- Passing `__post_init__` is equivalent to violating none of the four
validated conditions. -/
theorem post_init_none_iff (e : Event) :
    e.__post_init__ = none ↔
      ¬((e.source = "" ∨ pyStrip e.source = "") ∨ e.metadata.isDict = false ∨
        e.timestamp.tzinfo = none ∨
        (e.level = AlertLevel.NORMAL ∧
          e.status = EventStatus.ACKNOWLEDGED)) := by
  by_cases h1 : (e.source = "" ∨ pyStrip e.source = "") <;>
  by_cases h2 : e.metadata.isDict = true <;>
  by_cases h3 : e.timestamp.tzinfo = none <;>
  by_cases h4 : (e.level = AlertLevel.NORMAL ∧
      e.status = EventStatus.ACKNOWLEDGED) <;>
    simp [Event.__post_init__, Event._validate_source,
      Event._validate_metadata, Event._validate_timestamp,
      Event._validate_initial_state, h1, h2, h3, h4]

/-- Every `__post_init__` failure is of the validation-error kind. -/
theorem post_init_some_isValidation (e : Event) (err : DomainError)
    (h : e.__post_init__ = some err) : err.isValidation = true := by
  cases err <;> first
    | rfl
    | (by_cases h1 : (e.source = "" ∨ pyStrip e.source = "") <;>
       by_cases h2 : e.metadata.isDict = true <;>
       by_cases h3 : e.timestamp.tzinfo = none <;>
       by_cases h4 : (e.level = AlertLevel.NORMAL ∧
           e.status = EventStatus.ACKNOWLEDGED) <;>
       simp [Event.__post_init__, Event._validate_source,
         Event._validate_metadata, Event._validate_timestamp,
         Event._validate_initial_state, h1, h2, h3, h4] at h)

/-- Constructing succeeds exactly when validation passes, and then returns
the event built from the given fields. -/
theorem construct_ok_iff {id : Int} {source : String} {metadata : PyValue}
    {level : AlertLevel} {timestamp : PyDatetime} {status : EventStatus}
    {e : Event} :
    Event.construct id source metadata level timestamp status = .ok e ↔
      (Event.__post_init__
          ⟨id, source, metadata, level, timestamp, status⟩ = none ∧
        e = ⟨id, source, metadata, level, timestamp, status⟩) := by
  unfold Event.construct
  rcases hp : Event.__post_init__
      ⟨id, source, metadata, level, timestamp, status⟩ with _ | err <;>
    simp [hp, eq_comm]

/-- C5: constructing an event fails, always with a validation-error kind,
exactly when the source is empty or whitespace-only, or the metadata is not
a mapping, or the timestamp lacks a time zone, or the severity/status
combination violates the no-ack-for-lowest-severity invariant; otherwise
construction returns the event as given, and `create` returns a new event
whose status is NEW. -/
theorem C5_construction_validation (id : Int) (source : String)
    (metadata : PyValue) (level : AlertLevel) (timestamp : PyDatetime)
    (status : EventStatus) :
    ((∃ err, Event.construct id source metadata level timestamp status =
        .error err ∧ err.isValidation = true) ↔
      ((source = "" ∨ pyStrip source = "") ∨ metadata.isDict = false ∨
        timestamp.tzinfo = none ∨
        (level = AlertLevel.NORMAL ∧
          status = EventStatus.ACKNOWLEDGED))) ∧
    (∀ timestamp? now next_id e n,
      Event.create source metadata level timestamp? now next_id =
        .ok (e, n) →
      e.status = EventStatus.NEW) := by
  constructor
  · constructor
    · rintro ⟨err, herr, -⟩
      by_contra hcond
      have hnone :
          Event.__post_init__
            ⟨id, source, metadata, level, timestamp, status⟩ = none :=
        (post_init_none_iff _).mpr hcond
      rw [Event.construct] at herr
      rw [hnone] at herr
      exact Except.noConfusion herr
    · intro hcond
      rcases hp : Event.__post_init__
          ⟨id, source, metadata, level, timestamp, status⟩ with _ | err
      · exact absurd hcond ((post_init_none_iff _).mp hp)
      · refine ⟨err, ?_, post_init_some_isValidation _ _ hp⟩
        rw [Event.construct, hp]
  · intro timestamp? now next_id e n h
    rw [Event.create] at h
    rcases hc : Event.construct next_id source metadata level
        (timestamp?.getD now) EventStatus.NEW with err | e0
    · rw [hc] at h
      exact Except.noConfusion h
    · rw [hc] at h
      have he : e = e0 := by
        have := Except.ok.inj h
        exact (congrArg Prod.fst this.symm)
      have := construct_ok_iff.mp hc
      rw [he, this.2]

/-- Witness for C5: creating a valid ERROR event yields status NEW, and
constructing with an empty source fails with a validation-error kind. -/
theorem C5_construction_validation_witness :
    (⟨1, "api-gateway", PyValue.dict [], AlertLevel.ERROR, ⟨2, some 0⟩,
        EventStatus.NEW⟩ : Event).status = EventStatus.NEW ∧
    (∃ err, Event.construct 1 "" (PyValue.dict []) AlertLevel.ERROR
        ⟨2, some 0⟩ EventStatus.NEW = .error err ∧
      err.isValidation = true) :=
  ⟨(C5_construction_validation 1 "api-gateway" (PyValue.dict [])
      AlertLevel.ERROR ⟨2, some 0⟩ EventStatus.NEW).2
      (some ⟨2, some 0⟩) ⟨0, some 0⟩ 1 _ 2 (by rfl),
   (C5_construction_validation 1 "" (PyValue.dict []) AlertLevel.ERROR
      ⟨2, some 0⟩ EventStatus.NEW).1.mpr (Or.inl (Or.inl rfl))⟩

/-- C4: the no-acknowledged-NORMAL invariant is preserved by every
operation — direct construction rejects the combination, `create` never
produces it, `acknowledge` cannot reach it, and metadata mutation leaves
severity and status untouched. -/
theorem C4_normal_never_acknowledged :
    (∀ id source metadata level timestamp status e,
      Event.construct id source metadata level timestamp status = .ok e →
      ¬(e.level = AlertLevel.NORMAL ∧
        e.status = EventStatus.ACKNOWLEDGED)) ∧
    (∀ source metadata level timestamp? now next_id e n,
      Event.create source metadata level timestamp? now next_id =
        .ok (e, n) →
      ¬(e.level = AlertLevel.NORMAL ∧
        e.status = EventStatus.ACKNOWLEDGED)) ∧
    (∀ e : Event,
      ¬(e.level = AlertLevel.NORMAL ∧
        e.status = EventStatus.ACKNOWLEDGED) →
      ¬((e.acknowledge).2.level = AlertLevel.NORMAL ∧
        (e.acknowledge).2.status = EventStatus.ACKNOWLEDGED)) ∧
    (∀ (e : Event) (m : PyValue),
      ¬(e.level = AlertLevel.NORMAL ∧
        e.status = EventStatus.ACKNOWLEDGED) →
      ¬((e.set_metadata m).level = AlertLevel.NORMAL ∧
        (e.set_metadata m).status = EventStatus.ACKNOWLEDGED)) := by
  refine ⟨?_, ?_, ?_, ?_⟩
  · intro id source metadata level timestamp status e h
    obtain ⟨hnone, he⟩ := construct_ok_iff.mp h
    have hcond := (post_init_none_iff _).mp hnone
    subst he
    intro hbad
    exact hcond (Or.inr (Or.inr (Or.inr hbad)))
  · intro source metadata level timestamp? now next_id e n h
    rw [Event.create] at h
    rcases hc : Event.construct next_id source metadata level
        (timestamp?.getD now) EventStatus.NEW with err | e0
    · rw [hc] at h
      exact Except.noConfusion h
    · rw [hc] at h
      have he : e = e0 := congrArg Prod.fst (Except.ok.inj h).symm
      obtain ⟨-, he0⟩ := construct_ok_iff.mp hc
      rw [he, he0]
      rintro ⟨-, hst⟩
      exact EventStatus.noConfusion hst
  · intro e h
    obtain ⟨id, source, metadata, level, timestamp, status⟩ := e
    cases level <;> cases status <;>
      simp_all [Event.acknowledge]
  · intro e m h
    simpa [Event.set_metadata] using h

/-- Witness for C4 at concrete events: a freshly created WARNING event and
an acknowledged WARNING event both keep the invariant, through `create`,
`acknowledge`, and metadata mutation. -/
theorem C4_normal_never_acknowledged_witness :
    ¬((⟨1, "database", PyValue.dict [], AlertLevel.WARNING, ⟨1, some 0⟩,
        EventStatus.NEW⟩ : Event).level = AlertLevel.NORMAL ∧
      (⟨1, "database", PyValue.dict [], AlertLevel.WARNING, ⟨1, some 0⟩,
        EventStatus.NEW⟩ : Event).status = EventStatus.ACKNOWLEDGED) ∧
    ¬(((⟨1, "database", PyValue.dict [], AlertLevel.WARNING, ⟨1, some 0⟩,
        EventStatus.NEW⟩ : Event).acknowledge).2.level =
          AlertLevel.NORMAL ∧
      ((⟨1, "database", PyValue.dict [], AlertLevel.WARNING, ⟨1, some 0⟩,
        EventStatus.NEW⟩ : Event).acknowledge).2.status =
          EventStatus.ACKNOWLEDGED) ∧
    ¬(((⟨1, "database", PyValue.dict [], AlertLevel.WARNING, ⟨1, some 0⟩,
        EventStatus.NEW⟩ : Event).set_metadata
          (PyValue.dict [("k", "v")])).level = AlertLevel.NORMAL ∧
      ((⟨1, "database", PyValue.dict [], AlertLevel.WARNING, ⟨1, some 0⟩,
        EventStatus.NEW⟩ : Event).set_metadata
          (PyValue.dict [("k", "v")])).status =
        EventStatus.ACKNOWLEDGED) :=
  ⟨C4_normal_never_acknowledged.2.1 "database" (PyValue.dict [])
      AlertLevel.WARNING (some ⟨1, some 0⟩) ⟨0, some 0⟩ 1 _ 2 (by rfl),
   C4_normal_never_acknowledged.2.2.1 _
     (C4_normal_never_acknowledged.2.1 "database" (PyValue.dict [])
       AlertLevel.WARNING (some ⟨1, some 0⟩) ⟨0, some 0⟩ 1 _ 2 (by rfl)),
   C4_normal_never_acknowledged.2.2.2 _ (PyValue.dict [("k", "v")])
     (C4_normal_never_acknowledged.2.1 "database" (PyValue.dict [])
       AlertLevel.WARNING (some ⟨1, some 0⟩) ⟨0, some 0⟩ 1 _ 2 (by rfl))⟩

/-- C3: `needsAlert()` returns true if and only if the event's severity
requires acknowledgment (is above the lowest tier NORMAL, i.e. WARNING or
ERROR) and its status is NEW; in every other combination it returns
false. -/
theorem C3_needs_alert_iff (e : Event) :
    e.needs_alert = true ↔
      ((e.level = AlertLevel.WARNING ∨ e.level = AlertLevel.ERROR) ∧
        e.status = EventStatus.NEW) := by
  obtain ⟨id, source, metadata, level, timestamp, status⟩ := e
  cases level <;> cases status <;>
    simp [Event.needs_alert, Event.requires_acknowledgment,
      AlertLevel.requires_acknowledgment]

/-- C9: `Event.__eq__` is identity equality on id — two events compare
equal exactly when their ids are equal, regardless of any difference in the
other fields (which the comparison never inspects). -/
theorem C9_eq_iff_id (e1 e2 : Event) :
    Event.__eq__ e1 e2 = true ↔ e1.id = e2.id := by
  simp [Event.__eq__]

/-- C10: `acknowledge()` is atomic on the entity — whenever it raises, the
entity is returned exactly as it was before the call, every field
included. -/
theorem C10_acknowledge_atomic (e : Event) (err : DomainError)
    (h : (e.acknowledge).1 = some err) : (e.acknowledge).2 = e := by
  by_cases h1 : e.level = AlertLevel.NORMAL
  · simp [Event.acknowledge, h1]
  · by_cases h2 : e.status = EventStatus.ACKNOWLEDGED
    · simp [Event.acknowledge, h1, h2]
    · simp [Event.acknowledge, h1, h2] at h

/-- Witness for C10 at a concrete NORMAL event. -/
theorem C10_acknowledge_atomic_witness :
    ((⟨3, "cron-job", PyValue.dict [], AlertLevel.NORMAL, ⟨0, some 0⟩,
        EventStatus.NEW⟩ : Event).acknowledge).2 =
      (⟨3, "cron-job", PyValue.dict [], AlertLevel.NORMAL, ⟨0, some 0⟩,
        EventStatus.NEW⟩ : Event) :=
  C10_acknowledge_atomic _
    (.invalidEventTransition
      ("Cannot acknowledge NORMAL event 3" ++
        ": NORMAL events do not require acknowledgment")) (by rfl)

/-- C2: `acknowledge()` succeeds exactly when the severity requires
acknowledgment and the status is NEW; on success it sets the status to
ACKNOWLEDGED; every failure is of the transition-error kind; and a second
`acknowledge()` on the result of a successful one always fails with a
transition-error kind (not idempotent). -/
theorem C2_acknowledge_spec (e : Event) :
    ((e.acknowledge).1 = none ↔
      (e.level.requires_acknowledgment = true ∧
        e.status = EventStatus.NEW)) ∧
    ((e.acknowledge).1 = none →
      (e.acknowledge).2.status = EventStatus.ACKNOWLEDGED) ∧
    (∀ err, (e.acknowledge).1 = some err → err.isTransition = true) ∧
    ((e.acknowledge).1 = none →
      ∃ err, ((e.acknowledge).2.acknowledge).1 = some err ∧
        err.isTransition = true) := by
  obtain ⟨id, source, metadata, level, timestamp, status⟩ := e
  cases level <;> cases status <;>
    simp [Event.acknowledge, AlertLevel.requires_acknowledgment,
      DomainError.isTransition]

/-- Witness for C2: a concrete ERROR event in NEW acknowledges to
ACKNOWLEDGED and its re-acknowledgment fails with a transition error; a
concrete NORMAL event's failure is of the transition kind. -/
theorem C2_acknowledge_spec_witness :
    (((⟨1, "api-gateway", PyValue.dict [], AlertLevel.ERROR, ⟨2, some 0⟩,
        EventStatus.NEW⟩ : Event).acknowledge).2.status =
      EventStatus.ACKNOWLEDGED) ∧
    (∃ err,
      (((⟨1, "api-gateway", PyValue.dict [], AlertLevel.ERROR, ⟨2, some 0⟩,
          EventStatus.NEW⟩ : Event).acknowledge).2.acknowledge).1 =
        some err ∧ err.isTransition = true) ∧
    DomainError.isTransition
      (.invalidEventTransition
        ("Cannot acknowledge NORMAL event 3" ++
          ": NORMAL events do not require acknowledgment")) = true :=
  ⟨(C2_acknowledge_spec _).2.1 (by rfl),
   (C2_acknowledge_spec _).2.2.2 (by rfl),
   (C2_acknowledge_spec (⟨3, "cron-job", PyValue.dict [], AlertLevel.NORMAL,
      ⟨0, some 0⟩, EventStatus.NEW⟩ : Event)).2.2.1 _ (by rfl)⟩

/-- C6 counterexample: acknowledging id 1 against the empty store raises
the base `DomainException`, which is not the `EventNotFoundError` kind, so
the claim that the use case fails with a NotFoundError kind is false. -/
theorem C6_ack_use_case_counterexample :
    AckEventUseCase.execute ([] : List Event) 1 =
      (Except.error (DomainError.domainException "Event with id 1 not found"),
        ([] : List Event)) ∧
    DomainError.isNotFound
      (DomainError.domainException "Event with id 1 not found") = false := by
  exact ⟨rfl, rfl⟩

/-- C6 (amended): when the store has no event with the given id the
acknowledge use case fails with the base `DomainException` (message
`Event with id ... not found`) — not the `EventNotFoundError` subclass —
leaving the store unchanged; when the event exists, its `acknowledge()`
error propagates unchanged with the store untouched, and on success the
mutated entity is persisted via `update` and returned. -/
theorem C6_ack_use_case (store : List Event) (event_id : Int) :
    (get_by_id store event_id = none →
      AckEventUseCase.execute store event_id =
        (Except.error (DomainError.domainException
          ("Event with id " ++ toString event_id ++ " not found")), store)) ∧
    (∀ e, get_by_id store event_id = some e →
      (∀ err, (e.acknowledge).1 = some err →
        AckEventUseCase.execute store event_id =
          (Except.error err, store)) ∧
      ((e.acknowledge).1 = none →
        AckEventUseCase.execute store event_id =
          (Except.ok (e.acknowledge).2,
            update store (e.acknowledge).2))) := by
  constructor
  · intro h
    rw [AckEventUseCase.execute, h]
  · intro e he
    rcases hAck : e.acknowledge with ⟨o, e2⟩
    constructor
    · intro err herr
      have ho : o = some err := herr
      subst ho
      simp only [AckEventUseCase.execute, he, hAck]
    · intro hnone
      have ho : o = none := hnone
      subst ho
      simp only [AckEventUseCase.execute, he, hAck]

/-- Witness for C6: against a one-event store, acknowledging the present id
returns the acknowledged entity and persists it; against the empty store,
an unknown id fails with the base `DomainException` and the store stays
empty. -/
theorem C6_ack_use_case_witness :
    AckEventUseCase.execute
        [(⟨1, "api-gateway", PyValue.dict [], AlertLevel.ERROR, ⟨2, some 0⟩,
          EventStatus.NEW⟩ : Event)] 1 =
      (Except.ok ((⟨1, "api-gateway", PyValue.dict [], AlertLevel.ERROR,
          ⟨2, some 0⟩, EventStatus.NEW⟩ : Event).acknowledge).2,
        update
          [(⟨1, "api-gateway", PyValue.dict [], AlertLevel.ERROR, ⟨2, some 0⟩,
            EventStatus.NEW⟩ : Event)]
          ((⟨1, "api-gateway", PyValue.dict [], AlertLevel.ERROR, ⟨2, some 0⟩,
            EventStatus.NEW⟩ : Event).acknowledge).2) ∧
    AckEventUseCase.execute ([] : List Event) 5 =
      (Except.error (DomainError.domainException "Event with id 5 not found"),
        ([] : List Event)) :=
  ⟨((C6_ack_use_case
      [(⟨1, "api-gateway", PyValue.dict [], AlertLevel.ERROR, ⟨2, some 0⟩,
        EventStatus.NEW⟩ : Event)] 1).2 _ (by rfl)).2 (by rfl),
   (C6_ack_use_case ([] : List Event) 5).1 (by rfl)⟩

/-- When no dispatched alert fails, the sweep alerts exactly the
needs-alert events, in store order. -/
theorem sweep_all_ok (alert : Event → Except String Unit) :
    ∀ events : List Event,
      (∀ e ∈ events, e.needs_alert = true → alert e = Except.ok ()) →
      AlertEventsUseCase.execute events alert =
        (events.filter (fun e => e.needs_alert), none)
  | [], _ => rfl
  | e :: rest, h => by
    have hrest := sweep_all_ok alert rest
      (fun x hx hna => h x (List.mem_cons_of_mem _ hx) hna)
    by_cases hna : e.needs_alert = true
    · have hae := h e (List.mem_cons_self _ _) hna
      rw [AlertEventsUseCase.execute]
      simp [hna, hae, hrest]
    · rw [AlertEventsUseCase.execute]
      simp [hna, hrest]

/-- The first failing dispatch aborts the sweep: the events before it that
needed alerts were dispatched, the failing event's dispatch was attempted,
and nothing after it is evaluated or alerted. -/
theorem sweep_aborts (alert : Event → Except String Unit) (e : Event)
    (post : List Event) (msg : String) (he : e.needs_alert = true)
    (hfail : alert e = Except.error msg) :
    ∀ pre : List Event,
      (∀ x ∈ pre, x.needs_alert = true → alert x = Except.ok ()) →
      AlertEventsUseCase.execute (pre ++ e :: post) alert =
        (pre.filter (fun x => x.needs_alert) ++ [e], some msg)
  | [], _ => by
    rw [List.nil_append, AlertEventsUseCase.execute]
    simp [he, hfail]
  | x :: pre, h => by
    have hrec := sweep_aborts alert e post msg he hfail pre
      (fun y hy hna => h y (List.mem_cons_of_mem _ hy) hna)
    by_cases hna : x.needs_alert = true
    · have hax := h x (List.mem_cons_self _ _) hna
      rw [List.cons_append, AlertEventsUseCase.execute]
      simp [hna, hax, hrec]
    · rw [List.cons_append, AlertEventsUseCase.execute]
      simp [hna, hrec]

/-- C8 counterexample: with two needs-alert ERROR events in the store and
an alert collaborator that fails, the sweep dispatches only for the first
event and propagates the failure; the second event still needs an alert
but is never evaluated or dispatched, so a single failure is not isolated
per event. -/
theorem C8_sweep_counterexample :
    AlertEventsUseCase.execute
        [(⟨1, "api-gateway", PyValue.dict [], AlertLevel.ERROR, ⟨1, some 0⟩,
          EventStatus.NEW⟩ : Event),
         (⟨2, "database", PyValue.dict [], AlertLevel.ERROR, ⟨2, some 0⟩,
          EventStatus.NEW⟩ : Event)]
        (fun _ => Except.error "alert channel down") =
      ([(⟨1, "api-gateway", PyValue.dict [], AlertLevel.ERROR, ⟨1, some 0⟩,
          EventStatus.NEW⟩ : Event)], some "alert channel down") ∧
    (⟨2, "database", PyValue.dict [], AlertLevel.ERROR, ⟨2, some 0⟩,
      EventStatus.NEW⟩ : Event).needs_alert = true :=
  ⟨rfl, rfl⟩

/-- C8 (amended): alert-dispatch failures in the sweep are not isolated per
event — the first failing dispatch propagates its exception and aborts the
sweep, so no subsequent event is evaluated or alerted; when no dispatch
fails, the sweep dispatches exactly one alert per needs-alert event, in
store order. -/
theorem C8_sweep_failure_not_isolated (events : List Event)
    (alert : Event → Except String Unit) :
    ((∀ e ∈ events, e.needs_alert = true → alert e = Except.ok ()) →
      AlertEventsUseCase.execute events alert =
        (events.filter (fun e => e.needs_alert), none)) ∧
    (∀ pre e post msg, events = pre ++ e :: post →
      (∀ x ∈ pre, x.needs_alert = true → alert x = Except.ok ()) →
      e.needs_alert = true → alert e = Except.error msg →
      AlertEventsUseCase.execute events alert =
        (pre.filter (fun x => x.needs_alert) ++ [e], some msg)) := by
  refine ⟨sweep_all_ok alert events, ?_⟩
  intro pre e post msg hsplit hpre he hfail
  rw [hsplit]
  exact sweep_aborts alert e post msg he hfail pre hpre

/-- Witness for C8: the sweep over [ERROR-new, WARNING-acked, ERROR-acked]
with a never-failing collaborator dispatches exactly one alert, for the
ERROR-new event; with a collaborator failing on that same event placed
after a non-alerting one, the sweep stops there. -/
theorem C8_sweep_failure_not_isolated_witness :
    AlertEventsUseCase.execute
        [(⟨1, "api-gateway", PyValue.dict [], AlertLevel.ERROR, ⟨1, some 0⟩,
          EventStatus.NEW⟩ : Event),
         (⟨2, "database", PyValue.dict [], AlertLevel.WARNING, ⟨2, some 0⟩,
          EventStatus.ACKNOWLEDGED⟩ : Event),
         (⟨3, "api-gateway", PyValue.dict [], AlertLevel.ERROR, ⟨3, some 0⟩,
          EventStatus.ACKNOWLEDGED⟩ : Event)]
        (fun _ => Except.ok ()) =
      ([(⟨1, "api-gateway", PyValue.dict [], AlertLevel.ERROR, ⟨1, some 0⟩,
          EventStatus.NEW⟩ : Event)], none) ∧
    AlertEventsUseCase.execute
        [(⟨2, "database", PyValue.dict [], AlertLevel.WARNING, ⟨2, some 0⟩,
          EventStatus.ACKNOWLEDGED⟩ : Event),
         (⟨1, "api-gateway", PyValue.dict [], AlertLevel.ERROR, ⟨1, some 0⟩,
          EventStatus.NEW⟩ : Event),
         (⟨3, "api-gateway", PyValue.dict [], AlertLevel.ERROR, ⟨3, some 0⟩,
          EventStatus.NEW⟩ : Event)]
        (fun x => if x.id == 1 then Except.error "boom" else Except.ok ()) =
      ([(⟨1, "api-gateway", PyValue.dict [], AlertLevel.ERROR, ⟨1, some 0⟩,
          EventStatus.NEW⟩ : Event)], some "boom") :=
  ⟨(C8_sweep_failure_not_isolated _ _).1 (fun _ _ _ => rfl),
   (C8_sweep_failure_not_isolated _
      (fun x => if x.id == 1 then Except.error "boom" else Except.ok ())).2
     [(⟨2, "database", PyValue.dict [], AlertLevel.WARNING, ⟨2, some 0⟩,
        EventStatus.ACKNOWLEDGED⟩ : Event)]
     (⟨1, "api-gateway", PyValue.dict [], AlertLevel.ERROR, ⟨1, some 0⟩,
        EventStatus.NEW⟩ : Event)
     [(⟨3, "api-gateway", PyValue.dict [], AlertLevel.ERROR, ⟨3, some 0⟩,
        EventStatus.NEW⟩ : Event)]
     "boom" rfl
     (by
       intro x hx hna
       simp only [List.mem_singleton] at hx
       subst hx
       exact absurd hna (by decide))
     (by decide) rfl⟩

/-- Display-sink calls carry no alert payload. -/
theorem filterMap_showEvent_alertPayload (l : List AnnotatedEvent) :
    (l.map PipelineCall.showEvent).filterMap PipelineCall.alertPayload =
      [] := by
  induction l with
  | nil => rfl
  | cons a l ih => simp [List.filterMap_cons, PipelineCall.alertPayload, ih]

/-- The display-sink calls, projected back, are the events shown. -/
theorem filterMap_showEvent_showPayload (l : List AnnotatedEvent) :
    (l.map PipelineCall.showEvent).filterMap PipelineCall.showPayload =
      l := by
  induction l with
  | nil => rfl
  | cons a l ih => simp [List.filterMap_cons, PipelineCall.showPayload, ih]

/-- Show calls carry no alert payload, so the display loop contributes no
alert call to the trace whether or not it aborts. -/
theorem displayLoop_no_alertPayload (showE : AnnotatedEvent → Except String Unit) :
    ∀ l : List AnnotatedEvent,
      (displayLoop showE l).1.filterMap PipelineCall.alertPayload = []
  | [] => rfl
  | e :: rest => by
    rcases h : showE e with msg | u <;>
      simp [displayLoop, h, PipelineCall.alertPayload,
        displayLoop_no_alertPayload showE rest]

/-- When no show call fails, the display loop shows every event, in
order, and propagates no error. -/
theorem displayLoop_all_ok (showE : AnnotatedEvent → Except String Unit) :
    ∀ l : List AnnotatedEvent, (∀ e ∈ l, showE e = Except.ok ()) →
      displayLoop showE l = (l.map PipelineCall.showEvent, none)
  | [], _ => rfl
  | e :: rest, h => by
    have he := h e (List.mem_cons_self _ _)
    simp [displayLoop, he,
      displayLoop_all_ok showE rest
        (fun x hx => h x (List.mem_cons_of_mem _ hx))]

/-- C7 counterexample: with a one-event batch whose single event is
annotated should-alert, an identity rule and an always-succeeding save —
both stages succeed — but an alert collaborator that raises, the pipeline
passes no event at all to the Display collaborator, so rule and save
success alone does not guarantee the display dispatches the claim
asserts. -/
theorem C7_pipeline_dispatch_counterexample :
    (fun es => (Except.ok es : Except String (List AnnotatedEvent)))
      [(⟨⟨1, "api-gateway", PyValue.dict [], AlertLevel.ERROR, ⟨1, some 0⟩,
          EventStatus.NEW⟩, true⟩ : AnnotatedEvent)] =
      Except.ok
        [(⟨⟨1, "api-gateway", PyValue.dict [], AlertLevel.ERROR, ⟨1, some 0⟩,
            EventStatus.NEW⟩, true⟩ : AnnotatedEvent)] ∧
    (fun _ => (Except.ok () : Except String Unit))
      [(⟨⟨1, "api-gateway", PyValue.dict [], AlertLevel.ERROR, ⟨1, some 0⟩,
          EventStatus.NEW⟩, true⟩ : AnnotatedEvent)] = Except.ok () ∧
    (RealTimeEventProcessor.process
        (fun es => Except.ok es) (fun _ => Except.ok ())
        (fun _ => Except.error "alert channel unreachable")
        (fun _ => Except.ok ())
        [(⟨⟨1, "api-gateway", PyValue.dict [], AlertLevel.ERROR, ⟨1, some 0⟩,
            EventStatus.NEW⟩, true⟩ : AnnotatedEvent)]).1.filterMap
        PipelineCall.showPayload = [] ∧
    [(⟨⟨1, "api-gateway", PyValue.dict [], AlertLevel.ERROR, ⟨1, some 0⟩,
        EventStatus.NEW⟩, true⟩ : AnnotatedEvent)] ≠
      ([] : List AnnotatedEvent) :=
  ⟨rfl, rfl, rfl, fun h => List.noConfusion h⟩

/-- C7 (amended): when the rule application and the save both succeed, the
batch pipeline dispatches to the Alert collaborator exactly one call
carrying exactly the should-alert events of the annotated batch in batch
order, whatever that call returns; if the alert call fails, its error
propagates and no event reaches the Display collaborator; only if it
succeeds does the pipeline run the display loop over the full annotated
batch, one event at a time in the order received — showing every event
when no display call fails. -/
theorem C7_pipeline_dispatch
    (rule : List AnnotatedEvent → Except String (List AnnotatedEvent))
    (save : List AnnotatedEvent → Except String Unit)
    (alert : List AnnotatedEvent → Except String Unit)
    (showE : AnnotatedEvent → Except String Unit)
    (events processed : List AnnotatedEvent)
    (hr : rule events = Except.ok processed)
    (hs : save processed = Except.ok ()) :
    (RealTimeEventProcessor.process rule save alert showE events).1.filterMap
        PipelineCall.alertPayload =
      [processed.filter (fun e => e.should_alert)] ∧
    (∀ msg,
      alert (processed.filter (fun e => e.should_alert)) =
        Except.error msg →
      RealTimeEventProcessor.process rule save alert showE events =
        ([PipelineCall.save processed,
          PipelineCall.alert
            (processed.filter (fun e => e.should_alert))], some msg)) ∧
    (alert (processed.filter (fun e => e.should_alert)) = Except.ok () →
      RealTimeEventProcessor.process rule save alert showE events =
        ([PipelineCall.save processed,
          PipelineCall.alert
            (processed.filter (fun e => e.should_alert))] ++
          (displayLoop showE processed).1,
          (displayLoop showE processed).2)) ∧
    (alert (processed.filter (fun e => e.should_alert)) = Except.ok () →
      (∀ e ∈ processed, showE e = Except.ok ()) →
      (RealTimeEventProcessor.process rule save alert showE
          events).1.filterMap PipelineCall.showPayload = processed ∧
      (RealTimeEventProcessor.process rule save alert showE events).2 =
        none) := by
  rcases ha : alert (processed.filter (fun e => e.should_alert))
      with msg | u
  · have hp : RealTimeEventProcessor.process rule save alert showE events =
        ([PipelineCall.save processed,
          PipelineCall.alert
            (processed.filter (fun e => e.should_alert))], some msg) := by
      simp only [RealTimeEventProcessor.process, hr, hs, ha]
    refine ⟨?_, ?_, ?_, ?_⟩
    · rw [hp]
      simp [List.filterMap_cons, PipelineCall.alertPayload]
    · intro msg2 ha2
      rw [hp, Except.error.inj ha2]
    · intro ha2
      exact Except.noConfusion ha2
    · intro ha2 _
      exact Except.noConfusion ha2
  · cases u
    have hp : RealTimeEventProcessor.process rule save alert showE events =
        ([PipelineCall.save processed,
          PipelineCall.alert
            (processed.filter (fun e => e.should_alert))] ++
          (displayLoop showE processed).1,
          (displayLoop showE processed).2) := by
      simp only [RealTimeEventProcessor.process, hr, hs, ha]
    refine ⟨?_, ?_, fun _ => hp, ?_⟩
    · rw [hp]
      simp [List.filterMap_append, List.filterMap_cons,
        PipelineCall.alertPayload, displayLoop_no_alertPayload showE
        processed]
    · intro msg2 ha2
      exact Except.noConfusion ha2
    · intro _ hshows
      have hd := displayLoop_all_ok showE processed hshows
      rw [hp, hd]
      constructor
      · simpa [List.filterMap_append, List.filterMap_cons,
          PipelineCall.showPayload] using
          filterMap_showEvent_showPayload processed
      · rfl

/-- Witness for C7 at the spec scenario with all collaborators succeeding:
batch [ERROR-new, WARNING-acked, NORMAL-new] under the default rule
(annotate with `needs_alert`) produces one alert call carrying exactly the
ERROR-new event; the failing-alert conjunct is exercised with an alert
collaborator that raises, after which no event reaches Display. -/
theorem C7_pipeline_dispatch_witness :
    (RealTimeEventProcessor.process
        (fun es => Except.ok (es.map
          (fun a => ⟨a.event, a.event.needs_alert⟩)))
        (fun _ => Except.ok ()) (fun _ => Except.ok ())
        (fun _ => Except.ok ())
        [⟨⟨1, "api-gateway", PyValue.dict [], AlertLevel.ERROR, ⟨1, some 0⟩,
            EventStatus.NEW⟩, false⟩,
         ⟨⟨2, "database", PyValue.dict [], AlertLevel.WARNING, ⟨2, some 0⟩,
            EventStatus.ACKNOWLEDGED⟩, false⟩,
         ⟨⟨3, "cron-job", PyValue.dict [], AlertLevel.NORMAL, ⟨3, some 0⟩,
            EventStatus.NEW⟩, false⟩]).1.filterMap
        PipelineCall.alertPayload =
      [[⟨⟨1, "api-gateway", PyValue.dict [], AlertLevel.ERROR, ⟨1, some 0⟩,
          EventStatus.NEW⟩, true⟩]] ∧
    (RealTimeEventProcessor.process
        (fun es => Except.ok (es.map
          (fun a => ⟨a.event, a.event.needs_alert⟩)))
        (fun _ => Except.ok ()) (fun _ => Except.ok ())
        (fun _ => Except.ok ())
        [⟨⟨1, "api-gateway", PyValue.dict [], AlertLevel.ERROR, ⟨1, some 0⟩,
            EventStatus.NEW⟩, false⟩,
         ⟨⟨2, "database", PyValue.dict [], AlertLevel.WARNING, ⟨2, some 0⟩,
            EventStatus.ACKNOWLEDGED⟩, false⟩,
         ⟨⟨3, "cron-job", PyValue.dict [], AlertLevel.NORMAL, ⟨3, some 0⟩,
            EventStatus.NEW⟩, false⟩]).1.filterMap
        PipelineCall.showPayload =
      [⟨⟨1, "api-gateway", PyValue.dict [], AlertLevel.ERROR, ⟨1, some 0⟩,
          EventStatus.NEW⟩, true⟩,
       ⟨⟨2, "database", PyValue.dict [], AlertLevel.WARNING, ⟨2, some 0⟩,
          EventStatus.ACKNOWLEDGED⟩, false⟩,
       ⟨⟨3, "cron-job", PyValue.dict [], AlertLevel.NORMAL, ⟨3, some 0⟩,
          EventStatus.NEW⟩, false⟩] ∧
    RealTimeEventProcessor.process
        (fun es => Except.ok (es.map
          (fun a => ⟨a.event, a.event.needs_alert⟩)))
        (fun _ => Except.ok ())
        (fun _ => Except.error "alert channel unreachable")
        (fun _ => Except.ok ())
        [⟨⟨1, "api-gateway", PyValue.dict [], AlertLevel.ERROR, ⟨1, some 0⟩,
            EventStatus.NEW⟩, false⟩] =
      ([PipelineCall.save
          [⟨⟨1, "api-gateway", PyValue.dict [], AlertLevel.ERROR, ⟨1, some 0⟩,
              EventStatus.NEW⟩, true⟩],
        PipelineCall.alert
          [⟨⟨1, "api-gateway", PyValue.dict [], AlertLevel.ERROR, ⟨1, some 0⟩,
              EventStatus.NEW⟩, true⟩]],
        some "alert channel unreachable") := by
  refine ⟨?_, ?_, ?_⟩
  · exact (C7_pipeline_dispatch
      (fun es => Except.ok (es.map
        (fun a => ⟨a.event, a.event.needs_alert⟩)))
      (fun _ => Except.ok ()) (fun _ => Except.ok ())
      (fun _ => Except.ok ())
      [⟨⟨1, "api-gateway", PyValue.dict [], AlertLevel.ERROR, ⟨1, some 0⟩,
          EventStatus.NEW⟩, false⟩,
       ⟨⟨2, "database", PyValue.dict [], AlertLevel.WARNING, ⟨2, some 0⟩,
          EventStatus.ACKNOWLEDGED⟩, false⟩,
       ⟨⟨3, "cron-job", PyValue.dict [], AlertLevel.NORMAL, ⟨3, some 0⟩,
          EventStatus.NEW⟩, false⟩]
      [⟨⟨1, "api-gateway", PyValue.dict [], AlertLevel.ERROR, ⟨1, some 0⟩,
          EventStatus.NEW⟩, true⟩,
       ⟨⟨2, "database", PyValue.dict [], AlertLevel.WARNING, ⟨2, some 0⟩,
          EventStatus.ACKNOWLEDGED⟩, false⟩,
       ⟨⟨3, "cron-job", PyValue.dict [], AlertLevel.NORMAL, ⟨3, some 0⟩,
          EventStatus.NEW⟩, false⟩]
      (by rfl) (by rfl)).1
  · exact ((C7_pipeline_dispatch
      (fun es => Except.ok (es.map
        (fun a => ⟨a.event, a.event.needs_alert⟩)))
      (fun _ => Except.ok ()) (fun _ => Except.ok ())
      (fun _ => Except.ok ())
      [⟨⟨1, "api-gateway", PyValue.dict [], AlertLevel.ERROR, ⟨1, some 0⟩,
          EventStatus.NEW⟩, false⟩,
       ⟨⟨2, "database", PyValue.dict [], AlertLevel.WARNING, ⟨2, some 0⟩,
          EventStatus.ACKNOWLEDGED⟩, false⟩,
       ⟨⟨3, "cron-job", PyValue.dict [], AlertLevel.NORMAL, ⟨3, some 0⟩,
          EventStatus.NEW⟩, false⟩]
      [⟨⟨1, "api-gateway", PyValue.dict [], AlertLevel.ERROR, ⟨1, some 0⟩,
          EventStatus.NEW⟩, true⟩,
       ⟨⟨2, "database", PyValue.dict [], AlertLevel.WARNING, ⟨2, some 0⟩,
          EventStatus.ACKNOWLEDGED⟩, false⟩,
       ⟨⟨3, "cron-job", PyValue.dict [], AlertLevel.NORMAL, ⟨3, some 0⟩,
          EventStatus.NEW⟩, false⟩]
      (by rfl) (by rfl)).2.2.2 (by rfl) (fun _ _ => rfl)).1
  · exact (C7_pipeline_dispatch
      (fun es => Except.ok (es.map
        (fun a => ⟨a.event, a.event.needs_alert⟩)))
      (fun _ => Except.ok ())
      (fun _ => Except.error "alert channel unreachable")
      (fun _ => Except.ok ())
      [⟨⟨1, "api-gateway", PyValue.dict [], AlertLevel.ERROR, ⟨1, some 0⟩,
          EventStatus.NEW⟩, false⟩]
      [⟨⟨1, "api-gateway", PyValue.dict [], AlertLevel.ERROR, ⟨1, some 0⟩,
          EventStatus.NEW⟩, true⟩]
      (by rfl) (by rfl)).2.1 "alert channel unreachable" (by rfl)

/-- Priority numbering of the three levels is injective. -/
theorem priority_order_inj {a b : AlertLevel}
    (h : a.priority_order = b.priority_order) : a = b := by
  cases a <;> cases b <;> first | rfl | exact absurd h (by decide)

/-- Positive characterization of `Event.__lt__`: strictly higher severity,
or equal severity and strictly earlier timestamp. -/
theorem event_lt_iff (a b : Event) :
    Event.__lt__ a b = true ↔
      (a.level.priority_order < b.level.priority_order ∨
        (a.level = b.level ∧ a.timestamp.time < b.timestamp.time)) := by
  by_cases hl : a.level = b.level
  · simp [Event.__lt__, hl, PyDatetime.__lt__]
  · simp [Event.__lt__, hl, AlertLevel.__lt__]

/-- Characterization of the non-strict relation `eventLe`. -/
theorem eventLe_iff (a b : Event) :
    eventLe a b ↔
      (a.level.priority_order ≤ b.level.priority_order ∧
        (a.level = b.level → a.timestamp.time ≤ b.timestamp.time)) := by
  rw [eventLe, ← Bool.not_eq_true, event_lt_iff]
  push_neg
  constructor
  · rintro ⟨h1, h2⟩
    refine ⟨by omega, fun hl => ?_⟩
    have := h2 hl.symm
    omega
  · rintro ⟨h1, h2⟩
    refine ⟨by omega, fun hl => ?_⟩
    have := h2 hl.symm
    omega

instance : IsTotal Event eventLe :=
  ⟨fun a b => by
    rw [eventLe_iff, eventLe_iff]
    rcases Nat.lt_trichotomy a.level.priority_order
        b.level.priority_order with h | h | h
    · exact Or.inl ⟨by omega, fun hl =>
        absurd (congrArg AlertLevel.priority_order hl) (by omega)⟩
    · have hl : a.level = b.level := priority_order_inj h
      rcases Int.le_total a.timestamp.time b.timestamp.time with ht | ht
      · exact Or.inl ⟨by omega, fun _ => ht⟩
      · exact Or.inr ⟨by omega, fun _ => ht⟩
    · exact Or.inr ⟨by omega, fun hl =>
        absurd (congrArg AlertLevel.priority_order hl) (by omega)⟩⟩

instance : IsTrans Event eventLe :=
  ⟨fun a b c hab hbc => by
    rw [eventLe_iff] at hab hbc ⊢
    obtain ⟨h1, h2⟩ := hab
    obtain ⟨h3, h4⟩ := hbc
    refine ⟨by omega, fun hac => ?_⟩
    have hpac : a.level.priority_order = c.level.priority_order :=
      congrArg AlertLevel.priority_order hac
    have hlab : a.level = b.level := priority_order_inj (by omega)
    have hlbc : b.level = c.level := priority_order_inj (by omega)
    have := h2 hlab
    have := h4 hlbc
    omega⟩

/-- C1: `Event.__lt__` is a strict weak order sorting by severity first
(higher severity first) and by ascending timestamp within equal severity —
it is irreflexive, asymmetric, transitive, incomparability coincides with
equal severity and equal timestamp, and every pair is related or
equivalent; consequently sorting any list with this comparator is a
permutation of the list in which every earlier event has
higher-or-equal-priority severity than every later one, and
equal-severity pairs are in ascending timestamp order. -/
theorem C1_priority_comparator (a b c : Event) (l : List Event) :
    Event.__lt__ a a = false ∧
    (Event.__lt__ a b = true → Event.__lt__ b a = false) ∧
    (Event.__lt__ a b = true → Event.__lt__ b c = true →
      Event.__lt__ a c = true) ∧
    (Event.__lt__ a b = false → Event.__lt__ b a = false →
      a.level = b.level ∧ a.timestamp.time = b.timestamp.time) ∧
    (Event.__lt__ a b = true ∨ Event.__lt__ b a = true ∨
      (a.level = b.level ∧ a.timestamp.time = b.timestamp.time)) ∧
    (sortEvents l).Perm l ∧
    List.Pairwise
      (fun x y =>
        x.level.priority_order ≤ y.level.priority_order ∧
        (x.level = y.level → x.timestamp.time ≤ y.timestamp.time))
      (sortEvents l) := by
  refine ⟨?_, ?_, ?_, ?_, ?_, ?_, ?_⟩
  · rw [← Bool.not_eq_true, event_lt_iff]
    push_neg
    exact ⟨by omega, fun _ => by omega⟩
  · intro h
    rw [event_lt_iff] at h
    rw [← Bool.not_eq_true, event_lt_iff]
    push_neg
    rcases h with h | ⟨hl, ht⟩
    · refine ⟨by omega, fun hba => ?_⟩
      have : b.level.priority_order = a.level.priority_order :=
        congrArg AlertLevel.priority_order hba
      omega
    · have : a.level.priority_order = b.level.priority_order :=
        congrArg AlertLevel.priority_order hl
      exact ⟨by omega, fun _ => by omega⟩
  · intro h1 h2
    rw [event_lt_iff] at h1 h2 ⊢
    rcases h1 with h1 | ⟨hl1, ht1⟩ <;> rcases h2 with h2 | ⟨hl2, ht2⟩
    · exact Or.inl (by omega)
    · have : b.level.priority_order = c.level.priority_order :=
        congrArg AlertLevel.priority_order hl2
      exact Or.inl (by omega)
    · have : a.level.priority_order = b.level.priority_order :=
        congrArg AlertLevel.priority_order hl1
      exact Or.inl (by omega)
    · exact Or.inr ⟨hl1.trans hl2, by omega⟩
  · intro h1 h2
    rw [← Bool.not_eq_true, event_lt_iff] at h1 h2
    push_neg at h1 h2
    obtain ⟨ha, hb⟩ := h1
    obtain ⟨hc, hd⟩ := h2
    have hl : a.level = b.level := priority_order_inj (by omega)
    have := hb hl
    have := hd hl.symm
    exact ⟨hl, by omega⟩
  · rcases Nat.lt_trichotomy a.level.priority_order
        b.level.priority_order with h | h | h
    · exact Or.inl ((event_lt_iff a b).mpr (Or.inl h))
    · have hl : a.level = b.level := priority_order_inj h
      rcases Int.lt_trichotomy a.timestamp.time b.timestamp.time
          with ht | ht | ht
      · exact Or.inl ((event_lt_iff a b).mpr (Or.inr ⟨hl, ht⟩))
      · exact Or.inr (Or.inr ⟨hl, ht⟩)
      · exact Or.inr (Or.inl ((event_lt_iff b a).mpr
          (Or.inr ⟨hl.symm, ht⟩)))
    · exact Or.inr (Or.inl ((event_lt_iff b a).mpr (Or.inl h)))
  · exact List.perm_insertionSort eventLe l
  · exact (List.sorted_insertionSort eventLe l).imp
      (fun h => (eventLe_iff _ _).mp h)

/-- Witness for C1 at concrete events: asymmetry and transitivity across
ERROR, WARNING, NORMAL; incomparable events share level and timestamp; and
sorting the spec's example batch permutes it into severity groups with
ascending timestamps. -/
theorem C1_priority_comparator_witness :
    Event.__lt__
      (⟨2, "database", PyValue.dict [], AlertLevel.WARNING, ⟨1, some 0⟩,
        EventStatus.NEW⟩ : Event)
      (⟨1, "api-gateway", PyValue.dict [], AlertLevel.ERROR, ⟨2, some 0⟩,
        EventStatus.NEW⟩ : Event) = false ∧
    Event.__lt__
      (⟨1, "api-gateway", PyValue.dict [], AlertLevel.ERROR, ⟨2, some 0⟩,
        EventStatus.NEW⟩ : Event)
      (⟨3, "cron-job", PyValue.dict [], AlertLevel.NORMAL, ⟨0, some 0⟩,
        EventStatus.NEW⟩ : Event) = true ∧
    ((⟨4, "api-gateway", PyValue.dict [], AlertLevel.ERROR, ⟨7, some 0⟩,
        EventStatus.NEW⟩ : Event).level =
      (⟨5, "database", PyValue.nonDict "int", AlertLevel.ERROR, ⟨7, some 0⟩,
        EventStatus.ACKNOWLEDGED⟩ : Event).level ∧
      (⟨4, "api-gateway", PyValue.dict [], AlertLevel.ERROR, ⟨7, some 0⟩,
        EventStatus.NEW⟩ : Event).timestamp.time =
      (⟨5, "database", PyValue.nonDict "int", AlertLevel.ERROR, ⟨7, some 0⟩,
        EventStatus.ACKNOWLEDGED⟩ : Event).timestamp.time) ∧
    (sortEvents
      [(⟨3, "cron-job", PyValue.dict [], AlertLevel.NORMAL, ⟨0, some 0⟩,
          EventStatus.NEW⟩ : Event),
       (⟨1, "api-gateway", PyValue.dict [], AlertLevel.ERROR, ⟨2, some 0⟩,
          EventStatus.NEW⟩ : Event),
       (⟨2, "database", PyValue.dict [], AlertLevel.WARNING, ⟨1, some 0⟩,
          EventStatus.NEW⟩ : Event)]).Perm
      [(⟨3, "cron-job", PyValue.dict [], AlertLevel.NORMAL, ⟨0, some 0⟩,
          EventStatus.NEW⟩ : Event),
       (⟨1, "api-gateway", PyValue.dict [], AlertLevel.ERROR, ⟨2, some 0⟩,
          EventStatus.NEW⟩ : Event),
       (⟨2, "database", PyValue.dict [], AlertLevel.WARNING, ⟨1, some 0⟩,
          EventStatus.NEW⟩ : Event)] ∧
    List.Pairwise
      (fun x y =>
        x.level.priority_order ≤ y.level.priority_order ∧
        (x.level = y.level → x.timestamp.time ≤ y.timestamp.time))
      (sortEvents
        [(⟨3, "cron-job", PyValue.dict [], AlertLevel.NORMAL, ⟨0, some 0⟩,
            EventStatus.NEW⟩ : Event),
         (⟨1, "api-gateway", PyValue.dict [], AlertLevel.ERROR, ⟨2, some 0⟩,
            EventStatus.NEW⟩ : Event),
         (⟨2, "database", PyValue.dict [], AlertLevel.WARNING, ⟨1, some 0⟩,
            EventStatus.NEW⟩ : Event)]) := by
  refine ⟨?_, ?_, ?_, ?_, ?_⟩
  · exact (C1_priority_comparator
      (⟨1, "api-gateway", PyValue.dict [], AlertLevel.ERROR, ⟨2, some 0⟩,
        EventStatus.NEW⟩ : Event)
      (⟨2, "database", PyValue.dict [], AlertLevel.WARNING, ⟨1, some 0⟩,
        EventStatus.NEW⟩ : Event)
      (⟨2, "database", PyValue.dict [], AlertLevel.WARNING, ⟨1, some 0⟩,
        EventStatus.NEW⟩ : Event) []).2.1 rfl
  · exact (C1_priority_comparator
      (⟨1, "api-gateway", PyValue.dict [], AlertLevel.ERROR, ⟨2, some 0⟩,
        EventStatus.NEW⟩ : Event)
      (⟨2, "database", PyValue.dict [], AlertLevel.WARNING, ⟨1, some 0⟩,
        EventStatus.NEW⟩ : Event)
      (⟨3, "cron-job", PyValue.dict [], AlertLevel.NORMAL, ⟨0, some 0⟩,
        EventStatus.NEW⟩ : Event) []).2.2.1 rfl rfl
  · exact (C1_priority_comparator
      (⟨4, "api-gateway", PyValue.dict [], AlertLevel.ERROR, ⟨7, some 0⟩,
        EventStatus.NEW⟩ : Event)
      (⟨5, "database", PyValue.nonDict "int", AlertLevel.ERROR, ⟨7, some 0⟩,
        EventStatus.ACKNOWLEDGED⟩ : Event)
      (⟨5, "database", PyValue.nonDict "int", AlertLevel.ERROR, ⟨7, some 0⟩,
        EventStatus.ACKNOWLEDGED⟩ : Event) []).2.2.2.1 rfl rfl
  · exact (C1_priority_comparator
      (⟨3, "cron-job", PyValue.dict [], AlertLevel.NORMAL, ⟨0, some 0⟩,
        EventStatus.NEW⟩ : Event)
      (⟨3, "cron-job", PyValue.dict [], AlertLevel.NORMAL, ⟨0, some 0⟩,
        EventStatus.NEW⟩ : Event)
      (⟨3, "cron-job", PyValue.dict [], AlertLevel.NORMAL, ⟨0, some 0⟩,
        EventStatus.NEW⟩ : Event)
      [(⟨3, "cron-job", PyValue.dict [], AlertLevel.NORMAL, ⟨0, some 0⟩,
          EventStatus.NEW⟩ : Event),
       (⟨1, "api-gateway", PyValue.dict [], AlertLevel.ERROR, ⟨2, some 0⟩,
          EventStatus.NEW⟩ : Event),
       (⟨2, "database", PyValue.dict [], AlertLevel.WARNING, ⟨1, some 0⟩,
          EventStatus.NEW⟩ : Event)]).2.2.2.2.2.1
  · exact (C1_priority_comparator
      (⟨3, "cron-job", PyValue.dict [], AlertLevel.NORMAL, ⟨0, some 0⟩,
        EventStatus.NEW⟩ : Event)
      (⟨3, "cron-job", PyValue.dict [], AlertLevel.NORMAL, ⟨0, some 0⟩,
        EventStatus.NEW⟩ : Event)
      (⟨3, "cron-job", PyValue.dict [], AlertLevel.NORMAL, ⟨0, some 0⟩,
        EventStatus.NEW⟩ : Event)
      [(⟨3, "cron-job", PyValue.dict [], AlertLevel.NORMAL, ⟨0, some 0⟩,
          EventStatus.NEW⟩ : Event),
       (⟨1, "api-gateway", PyValue.dict [], AlertLevel.ERROR, ⟨2, some 0⟩,
          EventStatus.NEW⟩ : Event),
       (⟨2, "database", PyValue.dict [], AlertLevel.WARNING, ⟨1, some 0⟩,
          EventStatus.NEW⟩ : Event)]).2.2.2.2.2.2

end OpsBeacon
